import Mathlib

/-!
Formalization of the task-synchronization engine of `asana2sql`
(source file `asana2sql/Project.py`): SQL statement generation, the
sparse `ON CONFLICT` update-set construction of `insert_or_replace`,
the id-set-difference reconciliation of `synchronize`, task fetching
with sub-task flattening (`_tasks`), project-metadata caching
(`_project_data`), and table-name resolution (`table_name`).

Python scalar values are modelled by `PyValue`, task records by
association lists (Python dicts), the remote client by deterministic
fetch functions, and the database collaborator by the list of issued
calls together with a table semantics for the generated upsert and
delete statements.
-/

namespace Asana2Sql

/-- Python scalar values that can appear in a task record or a SQL
parameter list: `none` models Python `None` (SQL NULL / an absent
value). -/
inductive PyValue where
  | none : PyValue
  | str : String → PyValue
  | int : Int → PyValue
deriving DecidableEq, Repr

/-- Python truthiness of a scalar: `None`, `""` and `0` are falsy. -/
def PyValue.truthy : PyValue → Bool
  | PyValue.none => false
  | PyValue.str s => decide (s ≠ "")
  | PyValue.int n => decide (n ≠ 0)

/-- Projects the string out of a `str` value (`""` otherwise). -/
def PyValue.strVal : PyValue → String
  | PyValue.str s => s
  | _ => ""

/-- A fetched task record: a Python dict from remote field names to
scalar values. -/
abbrev Task := List (String × PyValue)

/-- Python `task[k]`: `Option.none` models a `KeyError`. -/
def Task.getItem (t : Task) (k : String) : Option PyValue := List.lookup k t

/-- Python `task.get(k)`: returns `None` when the key is absent. -/
def Task.get (t : Task) (k : String) : PyValue :=
  (Task.getItem t k).getD PyValue.none

/-- One configured field (the `asana2sql/fields.py` collaborator): its
SQL column name (`""` models a falsy `sql_name`, i.e. an indirect
field), its column definition fragment, its extractor
`get_data_from_task`, and the remote field names it requires. -/
structure Field where
  sql_name : String
  field_definition_sql : String
  get_data_from_task : Task → PyValue
  required_fields : List String

/-- The direct fields in declaration order: `Project._add_field`
appends a field to `_direct_fields` exactly when its `sql_name` is
truthy. -/
def direct_fields (fields : List Field) : List Field :=
  fields.filter (fun f => decide (f.sql_name ≠ ""))

/-- The indirect fields in declaration order. -/
def indirect_fields (fields : List Field) : List Field :=
  fields.filter (fun f => decide (f.sql_name = ""))

/-- `Project._id_field`: the first direct field
(`self._direct_fields[0]`). -/
def id_field (fields : List Field) : Option Field :=
  (direct_fields fields).head?

/-- `Project._required_fields`: the deduplicated set of remote field
names required by all configured fields. -/
def required_fields_of (fields : List Field) : List String :=
  ((direct_fields fields ++ indirect_fields fields).flatMap
    Field.required_fields).dedup

/-- The `fields=` selection string passed to every fetch:
`",".join(self._required_fields())`. -/
def field_selection (fields : List Field) : String :=
  String.intercalate "," (required_fields_of fields)

/-- A single-quote character as a string (`Char.ofNat 39`), used by
the SQL value quoting below. -/
def sq : String := String.singleton (Char.ofNat 39)

/-- `INSERT_OR_REPLACE_TEMPLATE` of `Project.py`: note that the
conflict target is the literal column `gid`, independent of the
configured fields. -/
def INSERT_OR_REPLACE_TEMPLATE
    (table_name columns values set_command : String) : String :=
  "INSERT INTO \"" ++ table_name ++ "\" (" ++ columns ++ ") VALUES (" ++
    values ++ ") ON CONFLICT (gid) DO UPDATE SET " ++ set_command ++ ";"

/-- `SELECT_TEMPLATE` of `Project.py`. -/
def SELECT_TEMPLATE (columns table_name : String) : String :=
  "SELECT " ++ columns ++ " FROM \"" ++ table_name ++ "\";"

/-- `DELETE_TEMPLATE` of `Project.py`. -/
def DELETE_TEMPLATE (table_name id_column : String) : String :=
  "DELETE FROM \"" ++ table_name ++ "\" WHERE " ++ id_column ++ " = ?;"

/-- `CREATE_TABLE_TEMPLATE` of `Project.py`. -/
def CREATE_TABLE_TEMPLATE (table_name columns : String) : String :=
  "CREATE TABLE IF NOT EXISTS \"" ++ table_name ++ "\" (" ++ columns ++ ");"

/-- The `set_command` accumulation loop of `Project.insert_or_replace`:
before each fragment after the first it appends `", "`, and for each
direct field with a truthy extracted value it appends
` <sql_name> = '<value>'` by string concatenation.  The Python
concatenation of the quote with the value raises `TypeError` when the
truthy value is not a string, modelled by `Except.error ()`. -/
def set_command_loop (t : Task) : List Field → String → Except Unit String
  | [], acc => Except.ok acc
  | f :: fs, acc =>
    if (Field.get_data_from_task f t).truthy then
      let acc1 := if acc = "" then acc else acc ++ ", "
      match Field.get_data_from_task f t with
      | PyValue.str s =>
          set_command_loop t fs
            (acc1 ++ " " ++ f.sql_name ++ " = " ++ sq ++ s ++ sq)
      | _ => Except.error ()
    else
      set_command_loop t fs acc

/-- `Project.insert_or_replace`: builds the column list, the positional
`?` placeholders, the sparse `ON CONFLICT` update-set and the parameter
list, and issues one write `(sql, params)`; a `TypeError` in the
update-set construction aborts before any statement is issued. -/
def insert_or_replace (fields : List Field) (table_name : String)
    (t : Task) : Except Unit (String × List PyValue) :=
  let dfs := direct_fields fields
  let columns := String.intercalate "," (dfs.map Field.sql_name)
  let values := String.intercalate "," (dfs.map (fun _ => "?"))
  match set_command_loop t dfs "" with
  | Except.error e => Except.error e
  | Except.ok sc =>
      Except.ok (INSERT_OR_REPLACE_TEMPLATE table_name columns values sc,
        dfs.map (fun f => Field.get_data_from_task f t))

/-- `Project.delete`: the issued delete statement and its parameter;
the `WHERE` column is the first direct field's `sql_name`
(`Project._id_field`), `Option.none` models the `IndexError` when no
direct field exists. -/
def delete_write (fields : List Field) (table_name : String)
    (task_id : PyValue) : Option (String × PyValue) :=
  (id_field fields).map
    (fun f => (DELETE_TEMPLATE table_name f.sql_name, task_id))

/-- The select statement issued by `Project.db_task_ids`: it reads the
first direct field's column. -/
def db_ids_select (fields : List Field) (table_name : String) :
    Option String :=
  (id_field fields).map (fun f => SELECT_TEMPLATE f.sql_name table_name)

/-- `Project.asana_task_ids`:
`set(task.get("gid") for task in self._tasks())`. -/
def asana_task_ids (tasks : List Task) : List PyValue :=
  (tasks.map (fun t => Task.get t "gid")).dedup

/-- `Project.db_task_ids`: the set of values read from the table's
identifier column (the rows returned by the database collaborator). -/
def db_task_ids (rows : List PyValue) : List PyValue := rows.dedup

/-- `ids_to_remove = db_task_ids.difference(asana_task_ids)` inside
`Project.synchronize`. -/
def ids_to_remove (rows : List PyValue) (tasks : List Task) :
    List PyValue :=
  (db_task_ids rows).filter (fun x => decide (x ∉ asana_task_ids tasks))

/-- One engine call to the database layer: an upsert for a task
(`insert_or_replace`) or a delete by identifier. -/
inductive Call where
  | insert_or_replace : Task → Call
  | delete : PyValue → Call
deriving DecidableEq, Repr

/-- `Project.synchronize`: reads the stored ids, computes the set
difference, upserts every fetched task, then deletes every id in
`ids_to_remove` — the sequence of calls in issue order. -/
def synchronize_calls (rows : List PyValue) (tasks : List Task) :
    List Call :=
  tasks.map Call.insert_or_replace ++
    (ids_to_remove rows tasks).map Call.delete

/-- `Project.export`: upserts every fetched task and issues no
deletes. -/
def export_calls (tasks : List Task) : List Call :=
  tasks.map Call.insert_or_replace

/-- The mirrored table: rows keyed by the value of the conflict-target
column, each storing the task last upserted into it. -/
abbrev Table := List (PyValue × Task)

/-- Semantics of the generated `INSERT ... ON CONFLICT (gid) DO UPDATE`
statement: update the row whose key equals the task's `gid` when one
exists, otherwise append a new row; never a duplicate-key failure. -/
def upsertRow (tbl : Table) (t : Task) : Table :=
  if tbl.any (fun r => decide (r.1 = Task.get t "gid")) then
    tbl.map (fun r =>
      if r.1 = Task.get t "gid" then (Task.get t "gid", t) else r)
  else
    tbl ++ [(Task.get t "gid", t)]

/-- Semantics of the generated `DELETE ... WHERE id = ?` statement. -/
def deleteRow (tbl : Table) (x : PyValue) : Table :=
  tbl.filter (fun r => decide (r.1 ≠ x))

/-- Applies one engine call to the table. -/
def apply_call (tbl : Table) : Call → Table
  | Call.insert_or_replace t => upsertRow tbl t
  | Call.delete x => deleteRow tbl x

/-- Applies a sequence of engine calls to the table, in order. -/
def apply_calls (tbl : Table) (cs : List Call) : Table :=
  cs.foldl apply_call tbl

/-- Result of `projects.find_by_id` on the remote client. -/
inductive ProjectFetch where
  | found : Task → ProjectFetch
  | notFound : ProjectFetch
  | apiError : ProjectFetch
deriving DecidableEq

/-- Errors surfacing from `Project._project_data`:
`NoSuchProjectException` carries the project id, any other remote
failure propagates unchanged. -/
inductive RunError where
  | noSuchProject : Int → RunError
  | propagated : RunError
deriving DecidableEq

/-- `Project._project_data`: returns the cached metadata when present;
otherwise fetches by id, translating the remote `NotFoundError` into
`NoSuchProjectException` and propagating other failures; a successful
fetch is cached.  Returns the data together with the new cache. -/
def project_data (find : Int → ProjectFetch) (pid : Int) :
    Option Task → Except RunError (Task × Option Task)
  | some cached => Except.ok (cached, some cached)
  | Option.none =>
    match find pid with
    | ProjectFetch.found d => Except.ok (d, some d)
    | ProjectFetch.notFound => Except.error (RunError.noSuchProject pid)
    | ProjectFetch.apiError => Except.error RunError.propagated

/-- The remote client collaborator: deterministic fetch functions. -/
structure AsanaClient where
  find_by_id : Int → ProjectFetch
  find_by_project : Int → String → List Task
  subtasks : PyValue → String → List Task

/-- The `print(sub_task["name"])` accesses in `Project._tasks`: a
`KeyError` (`Option.none`) when some sub-task lacks a name. -/
def names_of : List Task → Option (List PyValue)
  | [] => some []
  | s :: rest => do
      let n ← Task.getItem s "name"
      let more ← names_of rest
      pure (n :: more)

/-- The sub-task expansion loop of `Project._tasks`: for each top-level
task it reads `task["gid"]` (a `KeyError` when absent), fetches the
task's sub-tasks with the same field selection, touches every
sub-task's `name` (the `print`), and appends the sub-tasks flat. -/
def expand_subtasks (client : AsanaClient) (sel : String) :
    List Task → Option (List Task)
  | [] => some []
  | t :: rest => do
      let gid ← Task.getItem t "gid"
      let subs := client.subtasks gid sel
      let _ ← names_of subs
      let more ← expand_subtasks client sel rest
      pure (subs ++ more)

/-- `Project._tasks`: fetches the project's tasks with the
required-field selection, then appends every top-level task's
sub-tasks — fetched with the same selection — flat, as peer records
of the top-level tasks. -/
def tasks_run (client : AsanaClient) (fields : List Field)
    (pid : Int) : Option (List Task) := do
  let sel := field_selection fields
  let top := client.find_by_project pid sel
  let subs ← expand_subtasks client sel top
  pure (top ++ subs)

/-- Modelled from the spec: `util.sql_safe_name` (the file
`asana2sql/util.py` is not among the sources).  Spec §4.3: sanitizes a
name into a SQL-safe identifier by stripping/replacing characters
illegal in SQL identifiers; modelled as mapping every character that
is neither alphanumeric nor `_` to `_`. -/
def sql_safe_name (s : String) : String :=
  String.mk (s.data.map (fun c => if c.isAlphanum ∨ c = '_' then c else '_'))

/-- Run configuration: the project id and the table name (`""` models
a not-configured, falsy name). -/
structure Config where
  project_id : Int
  table_name : String

/-- `Project.table_name`: `sql_safe_name` applied to the configured
name when that is truthy, else to the fetched project name. -/
def table_name (cfg : Config) (project_name : String) : String :=
  sql_safe_name (if cfg.table_name ≠ "" then cfg.table_name else project_name)

/-- Number of single-quote characters in a string. -/
def quoteCount (s : String) : Nat := s.data.count (Char.ofNat 39)

/-- The update-set fragment generated for column `name` with string
value `s`: `" name = 's'"`. -/
def frag (name s : String) : String :=
  " " ++ name ++ " = " ++ sq ++ s ++ sq

/-- The direct fields whose extracted value is truthy for `t` — the
fields whose columns the generated update-set assigns. -/
def update_set_fields (fields : List Field) (t : Task) : List Field :=
  (direct_fields fields).filter
    (fun f => (Field.get_data_from_task f t).truthy)

/-- Joins fragments after the first: `", f1, f2..."`. -/
def contJoin : List String → String
  | [] => ""
  | a :: l => ", " ++ a ++ contJoin l

/-- Joins a fragment list with `", "` separators. -/
def joinFrags : List String → String
  | [] => ""
  | a :: l => a ++ contJoin l

/-- The update-set fragments a field list generates for a task: one
fragment per truthy direct field, in order. -/
def frags_of (l : List Field) (t : Task) : List String :=
  (l.filter (fun f => (Field.get_data_from_task f t).truthy)).map
    (fun f => frag f.sql_name (Field.get_data_from_task f t).strVal)

/-- Recognizes upsert calls in a call trace. -/
def isUpsert : Call → Bool
  | Call.insert_or_replace _ => true
  | Call.delete _ => false

/-- A remote task record carrying only a `gid`. -/
def tsk (n : Int) : Task := [("gid", PyValue.int n)]

/-- A stored task record, as an earlier run would have left it. -/
def tskOld (n : Int) : Task :=
  [("gid", PyValue.int n), ("name", PyValue.str "old")]

/-! ### Helper lemmas about the call traces -/

theorem mem_ids_to_remove (rows : List PyValue) (ts : List Task)
    (x : PyValue) :
    x ∈ ids_to_remove rows ts ↔
      x ∈ db_task_ids rows ∧ x ∉ asana_task_ids ts := by
  simp [ids_to_remove, List.mem_filter]

theorem delete_mem_synchronize_calls (rows : List PyValue)
    (ts : List Task) (x : PyValue) :
    Call.delete x ∈ synchronize_calls rows ts ↔
      x ∈ db_task_ids rows ∧ x ∉ asana_task_ids ts := by
  simp [synchronize_calls, mem_ids_to_remove]

theorem filter_isUpsert_upserts (ts : List Task) :
    (ts.map Call.insert_or_replace).filter isUpsert =
      ts.map Call.insert_or_replace := by
  induction ts with
  | nil => rfl
  | cons t ts ih => simp [isUpsert, ih]

theorem filter_isUpsert_deletes (xs : List PyValue) :
    (xs.map Call.delete).filter isUpsert = [] := by
  induction xs with
  | nil => rfl
  | cons x xs ih => simp [isUpsert, ih]

theorem synchronize_calls_filter_upserts (rows : List PyValue)
    (ts : List Task) :
    (synchronize_calls rows ts).filter isUpsert =
      ts.map Call.insert_or_replace := by
  rw [synchronize_calls, List.filter_append, filter_isUpsert_upserts,
    filter_isUpsert_deletes, List.append_nil]

theorem filter_map_replace (gid k : PyValue) (t : Task) (h : gid ≠ k) :
    ∀ rest : Table,
      (rest.map (fun r => if r.1 = gid then (gid, t) else r)).filter
          (fun r => decide (r.1 = k)) =
        rest.filter (fun r => decide (r.1 = k)) := by
  intro rest
  induction rest with
  | nil => rfl
  | cons r rest ih =>
    by_cases hr : r.1 = gid
    · simp only [List.map_cons, if_pos hr]
      rw [List.filter_cons, List.filter_cons]
      have h2 : ¬ (r.1 = k) := by rw [hr]; exact h
      simp only [decide_eq_true_eq, h, h2, ite_false]
      exact ih
    · simp only [List.map_cons, if_neg hr]
      rw [List.filter_cons, List.filter_cons, ih]

theorem upsertRow_filter_other (tbl : Table) (t : Task) (k : PyValue)
    (h : Task.get t "gid" ≠ k) :
    (upsertRow tbl t).filter (fun r => decide (r.1 = k)) =
      tbl.filter (fun r => decide (r.1 = k)) := by
  unfold upsertRow
  split
  · exact filter_map_replace (Task.get t "gid") k t h tbl
  · rw [List.filter_append]
    have : ([(Task.get t "gid", t)] : Table).filter
        (fun r => decide (r.1 = k)) = [] := by
      simp [List.filter_cons, h]
    rw [this, List.append_nil]

theorem apply_upserts_frame (ts : List Task) :
    ∀ (tbl : Table) (k : PyValue),
      k ∉ ts.map (fun t => Task.get t "gid") →
      (apply_calls tbl (ts.map Call.insert_or_replace)).filter
          (fun r => decide (r.1 = k)) =
        tbl.filter (fun r => decide (r.1 = k)) := by
  induction ts with
  | nil => intro tbl k _; rfl
  | cons t ts ih =>
    intro tbl k hk
    simp only [List.map_cons, List.mem_cons, not_or] at hk
    simp only [List.map_cons]
    have step : apply_calls tbl
        (Call.insert_or_replace t :: ts.map Call.insert_or_replace) =
        apply_calls (upsertRow tbl t) (ts.map Call.insert_or_replace) := rfl
    rw [step, ih (upsertRow tbl t) k hk.2,
      upsertRow_filter_other tbl t k (fun he => hk.1 he.symm)]

/-! ### Claim C1 -/

/-- C1: in every run of `synchronize` the upsert calls are exactly one
`insert_or_replace` per currently fetched task (including tasks whose
ids are already stored), and the deleted identifiers are exactly
`idsInDb − idsRemote`; concretely, with `idsInDb = {1,2,3}` and
`idsRemote = {2,3,4}`, tasks 2, 3, 4 are upserted, only id 1 is
deleted, and task 4 is appended as a new row rather than failing as a
duplicate. -/
theorem c1_synchronize_set_difference :
    (∀ (rows : List PyValue) (ts : List Task),
      (synchronize_calls rows ts).filter isUpsert =
        ts.map Call.insert_or_replace) ∧
    (∀ (rows : List PyValue) (ts : List Task) (x : PyValue),
      Call.delete x ∈ synchronize_calls rows ts ↔
        x ∈ db_task_ids rows ∧ x ∉ asana_task_ids ts) ∧
    (synchronize_calls [PyValue.int 1, PyValue.int 2, PyValue.int 3]
        [tsk 2, tsk 3, tsk 4] =
      [Call.insert_or_replace (tsk 2), Call.insert_or_replace (tsk 3),
       Call.insert_or_replace (tsk 4), Call.delete (PyValue.int 1)]) ∧
    (apply_calls
        [(PyValue.int 1, tskOld 1), (PyValue.int 2, tskOld 2),
         (PyValue.int 3, tskOld 3)]
        (synchronize_calls [PyValue.int 1, PyValue.int 2, PyValue.int 3]
          [tsk 2, tsk 3, tsk 4]) =
      [(PyValue.int 2, tsk 2), (PyValue.int 3, tsk 3),
       (PyValue.int 4, tsk 4)]) := by
  refine ⟨synchronize_calls_filter_upserts, delete_mem_synchronize_calls,
    ?_, ?_⟩
  · decide
  · decide

/-! ### Claim C2 -/

/-- C2: in every synchronize run every upsert is issued before any
delete (positionally in the call trace), and an identifier present in
both the stored and the remote id sets is never deleted, not even
transiently. -/
theorem c2_upserts_precede_deletes :
    (∀ (rows : List PyValue) (ts : List Task) (i j : Nat) (x : PyValue)
        (t : Task),
      (synchronize_calls rows ts)[i]? = some (Call.delete x) →
      (synchronize_calls rows ts)[j]? = some (Call.insert_or_replace t) →
      j < i) ∧
    (∀ (rows : List PyValue) (ts : List Task) (x : PyValue),
      x ∈ db_task_ids rows → x ∈ asana_task_ids ts →
      Call.delete x ∉ synchronize_calls rows ts) := by
  constructor
  · intro rows ts i j x t hi hj
    have hjlt : j < (ts.map Call.insert_or_replace).length := by
      by_contra hge
      push_neg at hge
      rw [synchronize_calls, List.getElem?_append_right hge] at hj
      have hmem := List.getElem?_mem hj
      simp at hmem
    have hige : (ts.map Call.insert_or_replace).length ≤ i := by
      by_contra hlt
      push_neg at hlt
      rw [synchronize_calls, List.getElem?_append_left hlt] at hi
      have hmem := List.getElem?_mem hi
      simp at hmem
    omega
  · intro rows ts x _ hasana
    rw [delete_mem_synchronize_calls]
    exact fun h => h.2 hasana

/-- Witness for C2 at a concrete run: the delete of id 1 sits at
index 1, after the upsert at index 0, and the id 2 present on both
sides is never deleted. -/
theorem c2_witness :
    (0 : Nat) < 1 ∧
      Call.delete (PyValue.int 2) ∉
        synchronize_calls [PyValue.int 1, PyValue.int 2] [tsk 2] :=
  ⟨c2_upserts_precede_deletes.1 [PyValue.int 1, PyValue.int 2] [tsk 2] 1 0
      (PyValue.int 1) (tsk 2) (by decide) (by decide),
   c2_upserts_precede_deletes.2 [PyValue.int 1, PyValue.int 2] [tsk 2]
      (PyValue.int 2) (by decide) (by decide)⟩

/-! ### Claim C5 -/

/-- C5: `export` issues one upsert per fetched task and never issues a
delete; a stored row whose key is not among the fetched gids is left
in the table unchanged. -/
theorem c5_export_never_deletes :
    (∀ (ts : List Task) (x : PyValue), Call.delete x ∉ export_calls ts) ∧
    (∀ ts : List Task,
      (export_calls ts).filter isUpsert = ts.map Call.insert_or_replace ∧
      (export_calls ts).length = ts.length) ∧
    (∀ (ts : List Task) (tbl : Table) (k : PyValue),
      k ∉ ts.map (fun t => Task.get t "gid") →
      (apply_calls tbl (export_calls ts)).filter
          (fun r => decide (r.1 = k)) =
        tbl.filter (fun r => decide (r.1 = k))) := by
  refine ⟨?_, ?_, ?_⟩
  · intro ts x h
    simp [export_calls] at h
  · intro ts
    exact ⟨filter_isUpsert_upserts ts, by simp [export_calls]⟩
  · intro ts tbl k hk
    exact apply_upserts_frame ts tbl k hk

/-- Witness for C5 at a concrete run: a stored row with id 7, absent
from the fetched tasks, is unchanged by an export of task 2. -/
theorem c5_witness :
    (apply_calls [(PyValue.int 7, tskOld 7)] (export_calls [tsk 2])).filter
        (fun r => decide (r.1 = PyValue.int 7)) =
      ([(PyValue.int 7, tskOld 7)] : Table).filter
        (fun r => decide (r.1 = PyValue.int 7)) :=
  c5_export_never_deletes.2.2 [tsk 2] [(PyValue.int 7, tskOld 7)]
    (PyValue.int 7) (by decide)

/-! ### Claim C10 -/

/-- A fetched record lacking the `gid` key. -/
def tngid : Task := [("name", PyValue.str "x")]

theorem asana_ids_filter_gidless (ts : List Task) (x : PyValue)
    (hx : x ≠ PyValue.none) :
    x ∈ asana_task_ids ts ↔
      x ∈ asana_task_ids
        (ts.filter (fun u => (Task.getItem u "gid").isSome)) := by
  simp only [asana_task_ids, List.mem_dedup, List.mem_map, List.mem_filter]
  constructor
  · rintro ⟨t, ht, hgt⟩
    refine ⟨t, ⟨ht, ?_⟩, hgt⟩
    cases hgi : Task.getItem t "gid" with
    | none =>
      exfalso
      apply hx
      rw [← hgt]
      simp [Task.get, hgi]
    | some v => simp
  · rintro ⟨t, ⟨ht, _⟩, hgt⟩
    exact ⟨t, ht, hgt⟩

/-- C10 counterexample: with a stored identifier that is itself `None`
(a SQL NULL read from the identifier column), a fetched record lacking
`gid` contributes `None` to the remote id set and thereby does prevent
`synchronize` from deleting a row: without the record the
NULL-identifier row is deleted, with it present it is not. -/
theorem c10_counterexample :
    Task.getItem tngid "gid" = Option.none ∧
    PyValue.none ∈ db_task_ids [PyValue.none] ∧
    Call.delete PyValue.none ∈ synchronize_calls [PyValue.none] [] ∧
    Call.delete PyValue.none ∉ synchronize_calls [PyValue.none] [tngid] := by
  decide

/-- C10 amended: a fetched record lacking the `gid` key does not raise
— `task.get` yields `None`, which joins the remote id set — and it can
match a stored identifier only when that identifier is itself `None`:
for every non-`None` identifier, whether `synchronize` deletes it is
unaffected by the presence of gid-less records. -/
theorem c10_gidless_records :
    (∀ t : Task, Task.getItem t "gid" = Option.none →
      Task.get t "gid" = PyValue.none) ∧
    (∀ (ts : List Task) (t : Task), t ∈ ts →
      Task.getItem t "gid" = Option.none →
      PyValue.none ∈ asana_task_ids ts) ∧
    (∀ (ts : List Task) (x : PyValue), x ≠ PyValue.none →
      (x ∈ asana_task_ids ts ↔
        x ∈ asana_task_ids
          (ts.filter (fun u => (Task.getItem u "gid").isSome)))) ∧
    (∀ (rows : List PyValue) (ts : List Task) (x : PyValue),
      x ≠ PyValue.none →
      (Call.delete x ∈ synchronize_calls rows ts ↔
       Call.delete x ∈ synchronize_calls rows
         (ts.filter (fun u => (Task.getItem u "gid").isSome)))) := by
  refine ⟨?_, ?_, asana_ids_filter_gidless, ?_⟩
  · intro t h
    simp [Task.get, h]
  · intro ts t ht h
    simp only [asana_task_ids, List.mem_dedup, List.mem_map]
    exact ⟨t, ht, by simp [Task.get, h]⟩
  · intro rows ts x hx
    rw [delete_mem_synchronize_calls, delete_mem_synchronize_calls,
      asana_ids_filter_gidless ts x hx]

/-- Witness for C10 at concrete inputs. -/
theorem c10_witness :
    Task.get tngid "gid" = PyValue.none ∧
    PyValue.none ∈ asana_task_ids [tngid] ∧
    (PyValue.int 5 ∈ asana_task_ids [tngid, tsk 5] ↔
      PyValue.int 5 ∈ asana_task_ids
        ([tngid, tsk 5].filter (fun u => (Task.getItem u "gid").isSome))) ∧
    (Call.delete (PyValue.int 9) ∈
        synchronize_calls [PyValue.int 9] [tngid] ↔
      Call.delete (PyValue.int 9) ∈ synchronize_calls [PyValue.int 9]
        ([tngid].filter (fun u => (Task.getItem u "gid").isSome))) :=
  ⟨c10_gidless_records.1 tngid (by decide),
   c10_gidless_records.2.1 [tngid] tngid (by decide) (by decide),
   c10_gidless_records.2.2.1 [tngid, tsk 5] (PyValue.int 5) (by decide),
   c10_gidless_records.2.2.2 [PyValue.int 9] [tngid] (PyValue.int 9)
     (by decide)⟩

/-! ### Claim C6 -/

/-- C6 counterexample: a configured table name containing a character
illegal in SQL identifiers is not returned verbatim — resolution
passes the configured name through the sanitizer too. -/
theorem c6_counterexample :
    table_name { project_id := 1, table_name := "my table" } "proj" ≠
        "my table" ∧
      table_name { project_id := 1, table_name := "my table" } "proj" =
        "my_table" := by
  decide

/-- C6 amended: when a table name is configured, resolution returns
the sanitized configured name — the explicit name still wins and the
project name is never consulted — otherwise it sanitizes the fetched
project name; resolution is a pure function of these inputs and the
sanitizer is idempotent. -/
theorem c6_table_name_resolution :
    (∀ (cfg : Config) (pn pn2 : String), cfg.table_name ≠ "" →
      table_name cfg pn = sql_safe_name cfg.table_name ∧
      table_name cfg pn = table_name cfg pn2) ∧
    (∀ (cfg : Config) (pn : String), cfg.table_name = "" →
      table_name cfg pn = sql_safe_name pn) ∧
    (∀ s : String, sql_safe_name (sql_safe_name s) = sql_safe_name s) := by
  refine ⟨?_, ?_, ?_⟩
  · intro cfg pn pn2 h
    constructor <;> simp [table_name, h]
  · intro cfg pn h
    simp [table_name, h]
  · intro s
    show String.mk (List.map _ (List.map _ s.data)) = String.mk _
    congr 1
    rw [List.map_map]
    refine List.map_congr_left ?_
    intro c _
    show (if (if c.isAlphanum ∨ c = '_' then c else '_').isAlphanum ∨
        (if c.isAlphanum ∨ c = '_' then c else '_') = '_' then
        (if c.isAlphanum ∨ c = '_' then c else '_') else '_') = _
    by_cases h : c.isAlphanum ∨ c = '_'
    · simp [h]
    · simp [h]

/-- Witness for C6 at concrete inputs. -/
theorem c6_witness :
    table_name { project_id := 1, table_name := "tasks" } "proj" =
        sql_safe_name "tasks" ∧
      table_name { project_id := 1, table_name := "tasks" } "proj" =
        table_name { project_id := 1, table_name := "tasks" } "other" ∧
      table_name { project_id := 1, table_name := "" } "My Project" =
        sql_safe_name "My Project" :=
  ⟨(c6_table_name_resolution.1
      { project_id := 1, table_name := "tasks" } "proj" "other"
      (by decide)).1,
   (c6_table_name_resolution.1
      { project_id := 1, table_name := "tasks" } "proj" "other"
      (by decide)).2,
   c6_table_name_resolution.2.1
      { project_id := 1, table_name := "" } "My Project" (by decide)⟩

/-! ### Claim C8 -/

/-- C8: with an empty cache, the first metadata access raises
`NoSuchProjectException` exactly when the remote client reports
not-found for the configured project id (other failures propagate as
themselves); a successful first access caches the metadata, and with a
populated cache every access returns the cached value for any client
behaviour whatsoever — i.e. without re-fetching. -/
theorem c8_project_data_cache :
    (∀ (find : Int → ProjectFetch) (pid : Int),
      project_data find pid Option.none =
          Except.error (RunError.noSuchProject pid) ↔
        find pid = ProjectFetch.notFound) ∧
    (∀ (find : Int → ProjectFetch) (pid : Int) (d : Task),
      find pid = ProjectFetch.found d →
      project_data find pid Option.none = Except.ok (d, some d)) ∧
    (∀ (find2 : Int → ProjectFetch) (pid : Int) (d : Task),
      project_data find2 pid (some d) = Except.ok (d, some d)) := by
  refine ⟨?_, ?_, ?_⟩
  · intro find pid
    cases h : find pid <;> simp [project_data, h]
  · intro find pid d h
    simp [project_data, h]
  · intro find2 pid d
    rfl

/-- Witness for C8 at a concrete client and cache. -/
theorem c8_witness :
    project_data (fun _ => ProjectFetch.found [("name", PyValue.str "P")])
        7 Option.none =
      Except.ok ([("name", PyValue.str "P")],
        some [("name", PyValue.str "P")]) ∧
    project_data (fun _ => ProjectFetch.notFound) 7
        (some [("name", PyValue.str "P")]) =
      Except.ok ([("name", PyValue.str "P")],
        some [("name", PyValue.str "P")]) ∧
    project_data (fun _ => ProjectFetch.notFound) 9 Option.none =
      Except.error (RunError.noSuchProject 9) :=
  ⟨c8_project_data_cache.2.1
      (fun _ => ProjectFetch.found [("name", PyValue.str "P")]) 7
      [("name", PyValue.str "P")] rfl,
   c8_project_data_cache.2.2 (fun _ => ProjectFetch.notFound) 7
      [("name", PyValue.str "P")],
   (c8_project_data_cache.1 (fun _ => ProjectFetch.notFound) 9).mpr rfl⟩

/-! ### String helpers and the update-set loop -/

theorem append_ne_empty_right (a b : String) (h : b ≠ "") :
    a ++ b ≠ "" := by
  intro he
  apply h
  apply String.ext
  have hd : (a ++ b).data = ([] : List Char) := by rw [he]
  rw [String.data_append] at hd
  exact (List.append_eq_nil.mp hd).2

/-- Exactly the fields with a truthy extracted value carry string
values (so the Python quote concatenation does not raise). -/
def truthy_vals_str (l : List Field) (t : Task) : Prop :=
  ∀ f ∈ l, (Field.get_data_from_task f t).truthy = true →
    ∃ s, Field.get_data_from_task f t = PyValue.str s

theorem set_command_loop_ok (t : Task) :
    ∀ (l : List Field) (acc : String), truthy_vals_str l t →
      set_command_loop t l acc =
        Except.ok (if acc = "" then joinFrags (frags_of l t)
          else acc ++ contJoin (frags_of l t)) := by
  intro l
  induction l with
  | nil =>
    intro acc _
    by_cases h : acc = ""
    · rw [if_pos h, h]; rfl
    · rw [if_neg h]
      show Except.ok acc = Except.ok (acc ++ "")
      rw [String.append_empty]
  | cons f fs ih =>
    intro acc hstr
    by_cases htr : (Field.get_data_from_task f t).truthy = true
    · obtain ⟨s, hs⟩ := hstr f (List.mem_cons_self f fs) htr
      have hts : (PyValue.str s).truthy = true := hs ▸ htr
      have hfrags : frags_of (f :: fs) t =
          frag f.sql_name s :: frags_of fs t := by
        simp [frags_of, List.filter_cons, htr, hs, hts, PyValue.strVal]
      have hrec : set_command_loop t (f :: fs) acc =
          set_command_loop t fs
            ((if acc = "" then acc else acc ++ ", ") ++ " " ++ f.sql_name
              ++ " = " ++ sq ++ s ++ sq) := by
        simp [set_command_loop, htr, hs, hts]
      have hne : (if acc = "" then acc else acc ++ ", ") ++ " " ++ f.sql_name
          ++ " = " ++ sq ++ s ++ sq ≠ "" := by
        apply append_ne_empty_right
        intro he
        have : (sq.data : List Char) = [] := by rw [he]
        simp [sq] at this
      rw [hrec, ih _ (fun g hg => hstr g (List.mem_cons_of_mem f hg)),
        if_neg hne, hfrags]
      refine congrArg Except.ok (String.ext ?_)
      by_cases ha : acc = ""
      · simp [ha, frag, joinFrags, contJoin, List.append_assoc]
      · simp [ha, frag, joinFrags, contJoin, List.append_assoc]
    · have hfrags : frags_of (f :: fs) t = frags_of fs t := by
        simp [frags_of, List.filter_cons, htr]
      have hrec : set_command_loop t (f :: fs) acc =
          set_command_loop t fs acc := by
        simp [set_command_loop, htr]
      rw [hfrags, hrec, ih _ (fun g hg => hstr g (List.mem_cons_of_mem f hg))]

theorem set_command_loop_error (t : Task) :
    ∀ (l : List Field) (acc : String),
      (∃ f ∈ l, (Field.get_data_from_task f t).truthy = true ∧
        ∀ s, Field.get_data_from_task f t ≠ PyValue.str s) →
      set_command_loop t l acc = Except.error () := by
  intro l
  induction l with
  | nil =>
    rintro acc ⟨f, hf, _⟩
    exact absurd hf (List.not_mem_nil f)
  | cons g gs ih =>
    rintro acc ⟨f, hf, htr, hns⟩
    rw [List.mem_cons] at hf
    by_cases hgt : (Field.get_data_from_task g t).truthy = true
    · cases hv : Field.get_data_from_task g t with
      | str s =>
        have hts : (PyValue.str s).truthy = true := hv ▸ hgt
        have hfgs : f ∈ gs := by
          rcases hf with rfl | h
          · exact absurd hv (hns s)
          · exact h
        rw [show set_command_loop t (g :: gs) acc =
            set_command_loop t gs
              ((if acc = "" then acc else acc ++ ", ") ++ " " ++ g.sql_name
                ++ " = " ++ sq ++ s ++ sq) by
          simp [set_command_loop, hgt, hv, hts]]
        exact ih _ ⟨f, hfgs, htr, hns⟩
      | none =>
        rw [hv] at hgt
        exact absurd hgt (by decide)
      | int n =>
        have hts : (PyValue.int n).truthy = true := hv ▸ hgt
        simp [set_command_loop, hgt, hv, hts]
    · have hfgs : f ∈ gs := by
        rcases hf with rfl | h
        · exact absurd htr hgt
        · exact h
      rw [show set_command_loop t (g :: gs) acc =
          set_command_loop t gs acc by simp [set_command_loop, hgt]]
      exact ih _ ⟨f, hfgs, htr, hns⟩

/-! ### Claim C4 -/

/-- A direct field extracting the `notes` attribute. -/
def fEmptyVal : Field :=
  { sql_name := "notes", field_definition_sql := "notes TEXT",
    get_data_from_task := fun t => Task.get t "notes",
    required_fields := ["notes"] }

/-- C4 counterexample: a task whose `notes` value is the empty string
— non-null and non-absent — nevertheless gets no assignment in the
update-set, because the code tests Python truthiness, not absence: the
generated `SET` clause is empty. -/
theorem c4_counterexample :
    Field.get_data_from_task fEmptyVal [("notes", PyValue.str "")] ≠
        PyValue.none ∧
      update_set_fields [fEmptyVal] [("notes", PyValue.str "")] = [] ∧
      set_command_loop [("notes", PyValue.str "")]
          (direct_fields [fEmptyVal]) "" = Except.ok "" :=
  ⟨by decide, rfl, rfl⟩

/-- C4 amended: the update-set contains an assignment for exactly
those direct-field columns whose extracted value is truthy (non-absent
and non-empty / non-zero); in particular a column whose extractor
returns absent never appears in the update-set, so absence never
overwrites a stored value — but non-absent falsy values (such as the
empty string) are also omitted. -/
theorem c4_sparse_update :
    (∀ (fields : List Field) (t : Task),
      truthy_vals_str (direct_fields fields) t →
      set_command_loop t (direct_fields fields) "" =
        Except.ok (joinFrags (frags_of (direct_fields fields) t))) ∧
    (∀ (fields : List Field) (t : Task) (f : Field),
      f ∈ update_set_fields fields t ↔
        f ∈ direct_fields fields ∧
          (Field.get_data_from_task f t).truthy = true) ∧
    (∀ (fields : List Field) (t : Task) (f : Field),
      f ∈ direct_fields fields →
      Field.get_data_from_task f t = PyValue.none →
      f ∉ update_set_fields fields t) := by
  refine ⟨?_, ?_, ?_⟩
  · intro fields t h
    rw [set_command_loop_ok t (direct_fields fields) "" h, if_pos rfl]
  · intro fields t f
    simp [update_set_fields, List.mem_filter]
  · intro fields t f _ hnone hmem
    rw [update_set_fields, List.mem_filter] at hmem
    rw [hnone] at hmem
    exact absurd hmem.2 (by decide)

/-- A direct field extracting the `name` attribute. -/
def fName : Field :=
  { sql_name := "name", field_definition_sql := "name TEXT",
    get_data_from_task := fun t => Task.get t "name",
    required_fields := ["name"] }

/-- Witness for C4 at a concrete field list and task. -/
theorem c4_witness :
    set_command_loop [("name", PyValue.str "Bob")]
        (direct_fields [fName]) "" =
      Except.ok (joinFrags
        (frags_of (direct_fields [fName]) [("name", PyValue.str "Bob")])) :=
  c4_sparse_update.1 [fName] [("name", PyValue.str "Bob")]
    (by
      intro f hf _
      have he : direct_fields [fName] = [fName] := rfl
      rw [he, List.mem_singleton] at hf
      subst hf
      exact ⟨"Bob", rfl⟩)

/-! ### Claim C9 -/

theorem quoteCount_frag (n s : String) :
    quoteCount (frag n s) = quoteCount n + quoteCount s + 2 := by
  have h1 : (" " : String).data.count (Char.ofNat 39) = 0 := by decide
  have h2 : (" = " : String).data.count (Char.ofNat 39) = 0 := by decide
  have h3 : sq.data.count (Char.ofNat 39) = 1 := by decide
  simp [quoteCount, frag, List.count_append, h1, h2, h3]
  omega

/-- A direct field extracting the `gid` attribute. -/
def fGid : Field :=
  { sql_name := "gid", field_definition_sql := "gid INTEGER",
    get_data_from_task := fun t => Task.get t "gid",
    required_fields := ["gid"] }

/-- C9: truthy extracted values are embedded into the update-set by
string concatenation inside single quotes — only the `VALUES` list
uses `?` placeholders — so a truthy non-string value aborts the call
with a `TypeError` before any statement is issued, and every quoted
fragment carries the value verbatim: a value containing a single
quote yields a fragment with three quote characters, i.e. malformed,
injectable SQL. -/
theorem c9_injectable_update_set :
    (∀ (fields : List Field) (tname : String) (t : Task),
      (∃ f ∈ direct_fields fields,
        (Field.get_data_from_task f t).truthy = true ∧
        ∀ s, Field.get_data_from_task f t ≠ PyValue.str s) →
      insert_or_replace fields tname t = Except.error ()) ∧
    (∀ (fields : List Field) (tname : String) (t : Task),
      truthy_vals_str (direct_fields fields) t →
      insert_or_replace fields tname t =
        Except.ok (INSERT_OR_REPLACE_TEMPLATE tname
            (String.intercalate ","
              ((direct_fields fields).map Field.sql_name))
            (String.intercalate ","
              ((direct_fields fields).map (fun _ => "?")))
            (joinFrags (frags_of (direct_fields fields) t)),
          (direct_fields fields).map
            (fun f => Field.get_data_from_task f t))) ∧
    (∀ n s : String,
      quoteCount (frag n s) = quoteCount n + quoteCount s + 2) ∧
    quoteCount (frag "name" ("a" ++ sq ++ "b")) = 3 := by
  refine ⟨?_, ?_, quoteCount_frag, by decide⟩
  · intro fields tname t hex
    simp [insert_or_replace,
      set_command_loop_error t (direct_fields fields) "" hex]
  · intro fields tname t h
    simp [insert_or_replace,
      set_command_loop_ok t (direct_fields fields) "" h]

/-- Witness for C9 at concrete inputs: an integer-valued `gid` field
aborts with a `TypeError`; a string-valued `name` field produces the
quoted concatenated statement. -/
theorem c9_witness :
    insert_or_replace [fGid] "tasks" (tsk 1) = Except.error () ∧
    insert_or_replace [fName] "tasks" [("name", PyValue.str "Bob")] =
      Except.ok (INSERT_OR_REPLACE_TEMPLATE "tasks"
          (String.intercalate ","
            ((direct_fields [fName]).map Field.sql_name))
          (String.intercalate ","
            ((direct_fields [fName]).map (fun _ => "?")))
          (joinFrags (frags_of (direct_fields [fName])
            [("name", PyValue.str "Bob")])),
        (direct_fields [fName]).map
          (fun f => Field.get_data_from_task f
            [("name", PyValue.str "Bob")])) :=
  ⟨c9_injectable_update_set.1 [fGid] "tasks" (tsk 1)
      ⟨fGid, List.mem_singleton.mpr rfl, by decide,
        fun s h => PyValue.noConfusion h⟩,
   c9_injectable_update_set.2.1 [fName] "tasks" [("name", PyValue.str "Bob")]
      (by
        intro f hf _
        have he : direct_fields [fName] = [fName] := rfl
        rw [he, List.mem_singleton] at hf
        subst hf
        exact ⟨"Bob", rfl⟩)⟩

/-! ### Claim C3 -/

/-- A direct field extracting a `task_id` attribute, so named to
differ from `gid`. -/
def fTaskId : Field :=
  { sql_name := "task_id", field_definition_sql := "task_id INTEGER",
    get_data_from_task := fun t => Task.get t "task_id",
    required_fields := ["task_id"] }

set_option maxRecDepth 8192 in
/-- C3 counterexample: with the single direct field `task_id`, the
delete statement and the select of stored ids use column `task_id`,
but the upsert's conflict target is still the hard-coded literal
`gid`: the generated SQL contains `ON CONFLICT (gid)` and does not
contain `ON CONFLICT (task_id)`. -/
theorem c3_counterexample :
    id_field [fTaskId] = some fTaskId ∧
    delete_write [fTaskId] "tasks" (PyValue.str "7") =
      some ("DELETE FROM \"tasks\" WHERE task_id = ?;", PyValue.str "7") ∧
    db_ids_select [fTaskId] "tasks" =
      some "SELECT task_id FROM \"tasks\";" ∧
    insert_or_replace [fTaskId] "tasks" [("task_id", PyValue.str "")] =
      Except.ok
        ("INSERT INTO \"tasks\" (task_id) VALUES (?) ON CONFLICT (gid) DO UPDATE SET ;",
          [PyValue.str ""]) ∧
    ("ON CONFLICT (gid)" : String).data <:+:
      ("INSERT INTO \"tasks\" (task_id) VALUES (?) ON CONFLICT (gid) DO UPDATE SET ;" : String).data ∧
    ¬ ("ON CONFLICT (task_id)" : String).data <:+:
      ("INSERT INTO \"tasks\" (task_id) VALUES (?) ON CONFLICT (gid) DO UPDATE SET ;" : String).data := by
  refine ⟨rfl, by decide, by decide, rfl, by decide, by decide⟩

/-- C3 amended: the delete statement's `WHERE` column and the column
read to compute the stored id set both equal the first direct field's
SQL name, but the upsert's `ON CONFLICT` conflict target is always
the literal `gid`, independent of the configured fields. -/
theorem c3_id_column_and_conflict_target :
    (∀ (fields : List Field) (tname : String) (x : PyValue) (f : Field),
      id_field fields = some f →
      delete_write fields tname x =
          some (DELETE_TEMPLATE tname f.sql_name, x) ∧
        db_ids_select fields tname =
          some (SELECT_TEMPLATE f.sql_name tname)) ∧
    (∀ tn c v s : String, ∃ pre post : String,
      INSERT_OR_REPLACE_TEMPLATE tn c v s =
        pre ++ ("ON CONFLICT (gid)" ++ post)) := by
  constructor
  · intro fields tname x f hf
    constructor
    · simp [delete_write, hf]
    · simp [db_ids_select, hf]
  · intro tn c v s
    refine ⟨"INSERT INTO \"" ++ tn ++ "\" (" ++ c ++ ") VALUES (" ++ v
      ++ ") ", " DO UPDATE SET " ++ s ++ ";", ?_⟩
    apply String.ext
    simp [INSERT_OR_REPLACE_TEMPLATE, List.append_assoc]

/-- Witness for C3 at concrete inputs. -/
theorem c3_witness :
    (delete_write [fTaskId] "t" (PyValue.int 3) =
        some (DELETE_TEMPLATE "t" fTaskId.sql_name, PyValue.int 3) ∧
      db_ids_select [fTaskId] "t" =
        some (SELECT_TEMPLATE fTaskId.sql_name "t")) ∧
    (∃ pre post : String,
      INSERT_OR_REPLACE_TEMPLATE "t" "c" "v" "s" =
        pre ++ ("ON CONFLICT (gid)" ++ post)) :=
  ⟨c3_id_column_and_conflict_target.1 [fTaskId] "t" (PyValue.int 3)
      fTaskId rfl,
   c3_id_column_and_conflict_target.2 "t" "c" "v" "s"⟩

/-! ### Claim C7 -/

theorem names_of_isSome (l : List Task)
    (h : ∀ s ∈ l, (Task.getItem s "name").isSome = true) :
    ∃ ns, names_of l = some ns := by
  induction l with
  | nil => exact ⟨[], rfl⟩
  | cons s rest ih =>
    obtain ⟨v, hv⟩ :=
      Option.isSome_iff_exists.mp (h s (List.mem_cons_self s rest))
    obtain ⟨ns, hns⟩ := ih (fun x hx => h x (List.mem_cons_of_mem s hx))
    exact ⟨v :: ns, by simp [names_of, hv, hns]⟩

theorem expand_subtasks_eq (client : AsanaClient) (sel : String) :
    ∀ l : List Task,
      (∀ t ∈ l, (Task.getItem t "gid").isSome = true) →
      (∀ t ∈ l, ∀ s ∈ client.subtasks (Task.get t "gid") sel,
        (Task.getItem s "name").isSome = true) →
      expand_subtasks client sel l =
        some (l.flatMap
          (fun t => client.subtasks (Task.get t "gid") sel)) := by
  intro l
  induction l with
  | nil => intro _ _; rfl
  | cons t rest ih =>
    intro h1 h2
    obtain ⟨g, hg⟩ :=
      Option.isSome_iff_exists.mp (h1 t (List.mem_cons_self t rest))
    have hget : Task.get t "gid" = g := by simp [Task.get, hg]
    obtain ⟨ns, hns⟩ := names_of_isSome (client.subtasks g sel)
      (by
        intro s hs
        exact h2 t (List.mem_cons_self t rest) s (by rwa [hget]))
    have hrest := ih (fun x hx => h1 x (List.mem_cons_of_mem t hx))
      (fun x hx => h2 x (List.mem_cons_of_mem t hx))
    simp [expand_subtasks, hg, hns, hrest, hget, List.flatMap_cons]

/-- A concrete top-level task. -/
def t1C7 : Task := [("gid", PyValue.str "1"), ("name", PyValue.str "a")]

/-- A concrete sub-task of `t1C7`. -/
def t2C7 : Task := [("gid", PyValue.str "2"), ("name", PyValue.str "b")]

/-- A concrete remote client: one top-level task with one sub-task. -/
def clientC7 : AsanaClient :=
  { find_by_id := fun _ => ProjectFetch.found [],
    find_by_project := fun _ _ => [t1C7],
    subtasks := fun g _ => if g = PyValue.str "1" then [t2C7] else [] }

/-- C7: the fetched sequence is the top-level tasks followed by each
top-level task's direct sub-tasks, fetched with the same
field-selection string and flattened as peers (when every gid and
sub-task name is present); concretely, one top-level task with one
sub-task yields two independent records, export upserts each of them,
the remote id set contains each gid, and when both ids are stored and
the fetch turns empty, each record is deleted by its own gid. -/
theorem c7_subtask_flattening :
    (∀ (client : AsanaClient) (fields : List Field) (pid : Int),
      (∀ t ∈ client.find_by_project pid (field_selection fields),
        (Task.getItem t "gid").isSome = true) →
      (∀ t ∈ client.find_by_project pid (field_selection fields),
        ∀ s ∈ client.subtasks (Task.get t "gid") (field_selection fields),
          (Task.getItem s "name").isSome = true) →
      tasks_run client fields pid =
        some (client.find_by_project pid (field_selection fields) ++
          (client.find_by_project pid (field_selection fields)).flatMap
            (fun t => client.subtasks (Task.get t "gid")
              (field_selection fields)))) ∧
    (tasks_run clientC7 [] 1 = some [t1C7, t2C7] ∧
      asana_task_ids [t1C7, t2C7] = [PyValue.str "1", PyValue.str "2"] ∧
      export_calls [t1C7, t2C7] =
        [Call.insert_or_replace t1C7, Call.insert_or_replace t2C7] ∧
      synchronize_calls [PyValue.str "1", PyValue.str "2"] [] =
        [Call.delete (PyValue.str "1"), Call.delete (PyValue.str "2")]) := by
  constructor
  · intro client fields pid h1 h2
    simp [tasks_run,
      expand_subtasks_eq client (field_selection fields)
        (client.find_by_project pid (field_selection fields)) h1 h2]
  · refine ⟨by decide, by decide, by decide, by decide⟩

/-- Witness for C7 at the concrete client. -/
theorem c7_witness :
    tasks_run clientC7 [] 1 =
      some (clientC7.find_by_project 1 (field_selection []) ++
        (clientC7.find_by_project 1 (field_selection [])).flatMap
          (fun t => clientC7.subtasks (Task.get t "gid")
            (field_selection []))) :=
  c7_subtask_flattening.1 clientC7 [] 1 (by decide) (by decide)

end Asana2Sql
